/-
Verification of the Umbraco member broker (src/Broker/index.js).

The broker is a small Express service: it caches an OAuth2 client-credentials
token, and exposes create/update/delete member operations that it translates
into calls against the downstream Umbraco management API.

Shallow embedding conventions:
  * The process-wide mutable `tokenSet` is threaded explicitly as an
    `Option TokenSet` state value.
  * Network responses are passed in as explicit `Response` values: `body`
    holds the parsed JSON body when the response has one (`response.json()`
    on a `none` body throws, which we model as `Outcome.crash`).
  * Each broker operation returns an `Outcome`: `ok` mirrors `resolve`,
    `err` mirrors `reject {code, description}`, and `crash` mirrors an
    exception thrown inside the promise executor (an unhandled rejection:
    the promise never settles with a classified error).
  * Grant attempts and downstream calls are counted or flagged in the
    return value so that "no downstream call was made" is provable.
-/
import Mathlib

set_option autoImplicit false

namespace Broker

/-! ## Token provider (src/Broker/index.js lines 19-30) -/

/-- A token set as returned by `client.grant`: the bearer string and its
expiry instant (openid-client's `expired()` compares `expires_at` with the
current time). -/
structure TokenSet where
  access_token : String
  expires_at : Nat
  deriving DecidableEq, Repr

/-- `tokenSet.expired()`: the token is expired when its expiry instant is
not in the future. -/
def TokenSet.expired (ts : TokenSet) (now : Nat) : Bool :=
  decide (ts.expires_at ≤ now)

/-- The guard `!tokenSet || tokenSet.expired()` of `getAccessToken`. -/
def needsGrant (st : Option TokenSet) (now : Nat) : Bool :=
  match st with
  | none => true
  | some ts => ts.expired now

/-- `getAccessToken()` (lines 21-30). State-passing embedding: `st` is the
process-wide `tokenSet` variable before the call, `now` the current time and
`grant` the environment's answer to a `client.grant` request (`Except.error`
when the grant is rejected, in which case the JS assignment
`tokenSet = await client.grant(...)` never executes). Returns the result of
the call, the `tokenSet` variable after the call, and the number of grant
requests performed. -/
def getAccessToken (st : Option TokenSet) (now : Nat)
    (grant : Except String TokenSet) :
    Except String String × Option TokenSet × Nat :=
  match st with
  | none =>
      match grant with
      | .ok ts => (.ok ts.access_token, some ts, 1)
      | .error e => (.error e, none, 1)
  | some ts =>
      if ts.expired now then
        match grant with
        | .ok ts2 => (.ok ts2.access_token, some ts2, 1)
        | .error e => (.error e, some ts, 1)
      else
        (.ok ts.access_token, some ts, 0)

/-! ## Downstream responses and operation outcomes -/

/-- The view of a `fetch` response used by the broker: `ok`, `status`,
`statusText`, `bodyUsed`, and the parsed JSON body. `body = none` means the
response carries no JSON body, so `response.json()` throws. -/
structure Response (α : Type) where
  ok : Bool
  status : Nat
  statusText : String
  bodyUsed : Bool
  body : Option α
  deriving DecidableEq, Repr

/-- A classified rejection value `{code, description}`. -/
structure ErrInfo where
  code : Nat
  description : String
  deriving DecidableEq, Repr

/-- Outcome of a broker promise: `ok` = resolved, `err` = rejected with a
classified error, `crash` = an exception escaped the async executor (the
promise never settles with a classified error). -/
inductive Outcome (α : Type) where
  | ok : α → Outcome α
  | err : ErrInfo → Outcome α
  | crash : Outcome α
  deriving DecidableEq, Repr

/-! ## Member lookup (`getMember`, lines 185-220) -/

/-- A locale variant record `{culture, segment, name}`. -/
structure Variant where
  culture : Option String
  segment : Option String
  name : String
  deriving DecidableEq, Repr

/-- An item of the downstream member-search result. -/
structure Item where
  id : String
  email : String
  username : String
  variants : List Variant
  deriving DecidableEq, Repr

/-- The body of a downstream member-search response: `{total, items}`. -/
structure SearchResult where
  total : Nat
  items : List Item
  deriving DecidableEq, Repr

/-- A search-result item with an empty `variants` list, used to exhibit the
unguarded `variants[0]` read. -/
def noVariantItem : Item :=
  { id := "i", email := "e", username := "u", variants := [] }

/-- The member value resolved by `getMember`. -/
structure Member where
  id : String
  email : String
  memberId : String
  name : String
  deriving DecidableEq, Repr

/-- `getMember(memberId)` (lines 199-220), applied to the search response.
On `response.ok`: parses the body (`crash` when there is none), resolves
`null` when `total === 0`, and otherwise reads `items[0]` and
`variants[0]` unguarded — an empty `items` or `variants` list makes the
JS code dereference `undefined` and throw (`crash`). On a non-ok
response: the `errorDetails` log line calls `response.json()` only when
`bodyUsed` is true, then rejects with `{code: status, description:
statusText}`. -/
def getMember (resp : Response SearchResult) : Outcome (Option Member) :=
  if resp.ok then
    match resp.body with
    | none => .crash
    | some result =>
        if result.total = 0 then
          .ok none
        else
          match result.items with
          | [] => .crash
          | item :: _ =>
              match item.variants with
              | [] => .crash
              | v :: _ =>
                  .ok (some { id := item.id, email := item.email,
                              memberId := item.username, name := v.name })
  else
    if resp.bodyUsed ∧ resp.body = none then
      .crash
    else
      .err { code := resp.status, description := resp.statusText }

/-! ## Request translator (`umbracoMemberModel`, lines 222-250) -/

/-- Process-wide configuration loaded from the environment at startup:
member-type id and the two group ids. -/
structure Config where
  memberTypeId : String
  regularGroupId : String
  vipGroupId : String
  deriving DecidableEq, Repr

/-- An entry of the `values` list: `{culture, segment, alias, value}`
(the field `alias` is spelled `valueAlias` here). -/
structure MemberValue where
  culture : Option String
  segment : Option String
  valueAlias : String
  value : String
  deriving DecidableEq, Repr

/-- The downstream member resource built by the translator. `password` is
absent in the translator output and set afterwards by `createMember`. -/
structure UmbracoMember where
  email : String
  username : String
  memberTypeId : String
  isApproved : Bool
  groups : List String
  values : List MemberValue
  variants : List Variant
  password : Option String
  deriving DecidableEq, Repr

/-- `umbracoMemberModel(memberId, name, email, isVip)` (lines 222-250).
`nowText` stands for `(new Date()).toUTCString()`, the informational audit
timestamp. -/
def umbracoMemberModel (cfg : Config) (nowText : String)
    (memberId name email : String) (isVip : Bool) : UmbracoMember :=
  let groupIds :=
    if isVip then [cfg.regularGroupId, cfg.vipGroupId]
    else [cfg.regularGroupId]
  { email := email
    username := memberId
    memberTypeId := cfg.memberTypeId
    isApproved := true
    groups := groupIds
    values := [{ culture := none, segment := none,
                 valueAlias := "lastSyncMessage",
                 value := "Last update: " ++ nowText }]
    variants := [{ culture := none, segment := none, name := name }]
    password := none }

/-! ## Member mutations (`createMember`, `updateMember`, `deleteMember`) -/

/-- Interpretation of the mutating `fetch` response shared by the three
write operations (e.g. lines 104-111): resolve on `ok`; otherwise the code
runs `const errorDetails = await response.json()` unconditionally, which
throws when the response has no JSON body (`crash`, the promise never
settles), and only then rejects `{code: status, description: statusText}`. -/
def writeOutcome (resp : Response Unit) : Outcome Unit :=
  if resp.ok then .ok ()
  else
    match resp.body with
    | none => .crash
    | some _ => .err { code := resp.status, description := resp.statusText }

/-- `createMember` (lines 79-115) after the `getMember` call: `lookRes` is
the outcome of the lookup and `resp` the downstream response to the member
creation POST. The second component records whether the creation POST was
performed at all. -/
def createMemberCore (lookRes : Outcome (Option Member))
    (resp : Response Unit) : Outcome Unit × Bool :=
  match lookRes with
  | .ok (some _) => (.err { code := 409, description := "Member already exists" }, false)
  | .ok none => (writeOutcome resp, true)
  | .err e => (.err e, false)
  | .crash => (.crash, false)

/-- `updateMember` (lines 117-151) after the `getMember` call. The second
component is the downstream resource id the PUT was addressed to (`none`
when no PUT was performed): the URL is
`.../member/${member.id}` with `member` the lookup result. -/
def updateMemberCore (lookRes : Outcome (Option Member))
    (resp : Response Unit) : Outcome Unit × Option String :=
  match lookRes with
  | .ok none => (.err { code := 404, description := "No such member" }, none)
  | .ok (some member) => (writeOutcome resp, some member.id)
  | .err e => (.err e, none)
  | .crash => (.crash, none)

/-- `deleteMember` (lines 153-183) after the `getMember` call. The second
component is the downstream resource id the DELETE was addressed to
(`none` when no DELETE was performed). -/
def deleteMemberCore (lookRes : Outcome (Option Member))
    (resp : Response Unit) : Outcome Unit × Option String :=
  match lookRes with
  | .ok none => (.err { code := 404, description := "No such member" }, none)
  | .ok (some member) => (writeOutcome resp, some member.id)
  | .err e => (.err e, none)
  | .crash => (.crash, none)

/-! ## Full create pipeline with token threading and call counting -/

/-- Counters for outbound traffic of one inbound request: grant requests,
member-search GETs, and member-creation POSTs. -/
structure CallCounts where
  grants : Nat
  searches : Nat
  posts : Nat
  deriving DecidableEq, Repr

/-- The environment of one `createMember` run: token state and clock, the
environment's answer to a grant request, and the downstream responses to
the search GET and the creation POST. -/
structure CreateEnv where
  tok : Option TokenSet
  now : Nat
  grant : Except String TokenSet
  searchResp : Response SearchResult
  postResp : Response Unit
  deriving Repr

/-- `getMember` including its leading `getAccessToken()` call (line 186).
If the grant is rejected, the `await` throws inside the async executor and
the `getMember` promise never settles (`crash`). Returns the outcome, the
token state after the call, and the call counts. -/
def getMemberFull (env : CreateEnv) :
    Outcome (Option Member) × Option TokenSet × CallCounts :=
  match getAccessToken env.tok env.now env.grant with
  | (.error _, st, g) => (.crash, st, { grants := g, searches := 0, posts := 0 })
  | (.ok _, st, g) =>
      (getMember env.searchResp, st, { grants := g, searches := 1, posts := 0 })

set_option linter.unusedVariables false in
/-- `createMember(memberId, name, email, isVip)` (lines 79-115) end to end:
lookup (with its token fetch), conflict check, resource construction with a
fresh password `pwd` (`uuidV4()`), the second `getAccessToken()` call, and
the creation POST. Returns the outcome, the token state afterwards, and the
outbound call counts. -/
def createMemberFull (env : CreateEnv) (cfg : Config) (nowText pwd : String)
    (memberId name email : String) (isVip : Bool) :
    Outcome Unit × Option TokenSet × CallCounts :=
  match getMemberFull env with
  | (.ok (some _), st, c) =>
      (.err { code := 409, description := "Member already exists" }, st, c)
  | (.ok none, st, c) =>
      let umbracoMember :=
        { umbracoMemberModel cfg nowText memberId name email isVip with
          password := some pwd }
      match getAccessToken st env.now env.grant with
      | (.error _, st2, g2) =>
          (.crash, st2, { c with grants := c.grants + g2 })
      | (.ok _, st2, g2) =>
          (writeOutcome env.postResp, st2,
           { grants := c.grants + g2, searches := c.searches, posts := c.posts + 1 })
  | (.err e, st, c) => (.err e, st, c)
  | (.crash, st, c) => (.crash, st, c)

/-! ## HTTP facade: `POST /member` (lines 40-52) -/

/-- The inbound JSON body of `POST /member`: each field may be absent. -/
structure CreateBody where
  memberId : Option String
  name : Option String
  email : Option String
  isVip : Option Bool
  deriving DecidableEq, Repr

/-- JS truthiness of a possibly-absent string field: `!data.email` is true
when the field is `undefined` or the empty string. -/
def truthy (f : Option String) : Bool :=
  match f with
  | none => false
  | some s => decide (s ≠ "")

/-- The handler of `POST /member` (lines 40-52). Returns the HTTP response
sent (`none` when `createMember` crashed, i.e. never settled, so no
response is ever written) and the outbound call counts. The validation
branch returns 400 before any downstream activity. -/
def postMember (env : CreateEnv) (cfg : Config) (nowText pwd : String)
    (body : CreateBody) : Option (Nat × String) × CallCounts :=
  if truthy body.email && truthy body.name && truthy body.memberId then
    match createMemberFull env cfg nowText pwd (body.memberId.getD "")
        (body.name.getD "") (body.email.getD "") (body.isVip.getD false) with
    | (.ok _, _, c) => (some (200, ""), c)
    | (.err e, _, c) => (some (e.code, e.description), c)
    | (.crash, _, c) => (none, c)
  else
    (some (400, "Malformed request body (missing required member properties)"),
     { grants := 0, searches := 0, posts := 0 })

/-! ## Ideal downstream model

Modelled from the spec: the downstream Umbraco member API itself is an
external collaborator and not part of the repository. To state sequence
properties ("create then create with the same memberId"), we model a
well-behaved downstream: the search-by-filter endpoint finds a previously
created member by `username` (`filter=memberId&take=1` returning
`{total, items}`), and the creation POST stores the submitted resource
under a fresh downstream id. -/

/-- A member record stored by the downstream system. -/
structure DsMember where
  id : String
  email : String
  username : String
  variants : List Variant
  groups : List String
  isApproved : Bool
  deriving DecidableEq, Repr

/-- Projection of a stored downstream member to a search-result item. -/
def DsMember.toItem (m : DsMember) : Item :=
  { id := m.id, email := m.email, username := m.username, variants := m.variants }

/-- Modelled from the spec: the downstream member search filtered by
`memberId` with `take=1`, returning `{total, items}`. -/
def dsSearch (ds : List DsMember) (memberId : String) : SearchResult :=
  match ds.find? (fun m => m.username == memberId) with
  | some m => { total := 1, items := [m.toItem] }
  | none => { total := 0, items := [] }

/-- Modelled from the spec: a successful search response carrying the
search result as its JSON body. -/
def idealSearchResp (ds : List DsMember) (memberId : String) :
    Response SearchResult :=
  { ok := true, status := 200, statusText := "OK", bodyUsed := false,
    body := some (dsSearch ds memberId) }

/-- Modelled from the spec: the downstream accepts a creation POST and
stores the submitted resource under the fresh id `newId`. -/
def dsApplyCreate (ds : List DsMember) (m : UmbracoMember) (newId : String) :
    List DsMember :=
  ds ++ [{ id := newId, email := m.email, username := m.username,
           variants := m.variants, groups := m.groups,
           isApproved := m.isApproved }]

/-- `createMember` run against the ideal downstream (token acquisition
assumed successful and elided): lookup by `memberId`, conflict check, and
on success the downstream stores the translated resource. Returns the
outcome and the downstream state afterwards. -/
def createIdeal (ds : List DsMember) (cfg : Config) (nowText pwd newId : String)
    (memberId name email : String) (isVip : Bool) :
    Outcome Unit × List DsMember :=
  match getMember (idealSearchResp ds memberId) with
  | .ok (some _) => (.err { code := 409, description := "Member already exists" }, ds)
  | .ok none =>
      let umbracoMember :=
        { umbracoMemberModel cfg nowText memberId name email isVip with
          password := some pwd }
      (.ok (), dsApplyCreate ds umbracoMember newId)
  | .err e => (.err e, ds)
  | .crash => (.crash, ds)

/-! ## Theorems -/

/-- C1: `getAccessToken` performs a client-credentials grant if and only if
no token is held or the held token is expired, storing the new token and
its expiry in the cache; otherwise it returns the cached token unchanged.
Consequently, starting from an empty cache, the first call triggers exactly
one grant, a second call before expiry triggers no new grant, and a call
after expiry triggers exactly one new grant. -/
theorem getAccessToken_grant_iff_needed :
    (∀ st now grant,
      (getAccessToken st now grant).2.2 = if needsGrant st now then 1 else 0) ∧
    (∀ (ts : TokenSet) now grant, ts.expired now = false →
      getAccessToken (some ts) now grant = (.ok ts.access_token, some ts, 0)) ∧
    (∀ st now ts2, needsGrant st now = true →
      getAccessToken st now (.ok ts2) = (.ok ts2.access_token, some ts2, 1)) ∧
    (∀ (ts1 ts2 : TokenSet) now1 now2 now3 g2,
      now2 < ts1.expires_at → ts1.expires_at ≤ now3 →
      getAccessToken none now1 (.ok ts1) = (.ok ts1.access_token, some ts1, 1) ∧
      getAccessToken (some ts1) now2 g2 = (.ok ts1.access_token, some ts1, 0) ∧
      getAccessToken (some ts1) now3 (.ok ts2)
        = (.ok ts2.access_token, some ts2, 1)) := by
  refine ⟨?_, ?_, ?_, ?_⟩
  · intro st now grant
    cases st with
    | none => cases grant <;> simp [getAccessToken, needsGrant]
    | some ts =>
        cases hexp : ts.expired now <;>
          cases grant <;> simp [getAccessToken, needsGrant, hexp]
  · intro ts now grant h
    simp [getAccessToken, h]
  · intro st now ts2 h
    cases st with
    | none => simp [getAccessToken]
    | some ts =>
        simp only [needsGrant] at h
        simp [getAccessToken, h]
  · intro ts1 ts2 now1 now2 now3 g2 h2 h3
    have hexp2 : ts1.expired now2 = false := by
      simp [TokenSet.expired]; omega
    have hexp3 : ts1.expired now3 = true := by
      simp [TokenSet.expired]; omega
    exact ⟨by simp [getAccessToken], by simp [getAccessToken, hexp2],
           by simp [getAccessToken, hexp3]⟩

/-- Concrete instance of `getAccessToken_grant_iff_needed`: a cached token
that expires at 10 is reused at time 5 without a grant; an empty cache at
time 0 grants once; the same token at time 10 is expired and is replaced by
exactly one new grant. -/
theorem getAccessToken_grant_iff_needed_witness :
    getAccessToken (some ⟨"t1", 10⟩) 5 (.ok ⟨"t2", 20⟩)
      = (.ok "t1", some ⟨"t1", 10⟩, 0) ∧
    getAccessToken none 0 (.ok ⟨"t1", 10⟩) = (.ok "t1", some ⟨"t1", 10⟩, 1) ∧
    getAccessToken (some ⟨"t1", 10⟩) 10 (.ok ⟨"t2", 20⟩)
      = (.ok "t2", some ⟨"t2", 20⟩, 1) :=
  ⟨getAccessToken_grant_iff_needed.2.1 ⟨"t1", 10⟩ 5 (.ok ⟨"t2", 20⟩) (by decide),
   (getAccessToken_grant_iff_needed.2.2.2 ⟨"t1", 10⟩ ⟨"t2", 20⟩ 0 5 10
      (.ok ⟨"t2", 20⟩) (by decide) (by decide)).1,
   (getAccessToken_grant_iff_needed.2.2.2 ⟨"t1", 10⟩ ⟨"t2", 20⟩ 0 5 10
      (.ok ⟨"t2", 20⟩) (by decide) (by decide)).2.2⟩

/-- C10: when a grant is attempted (no token held or the held token is
expired) and the grant fails, `getAccessToken` propagates the failure and
the cached token state is left unchanged: the previously held token set,
possibly expired or absent, is neither replaced nor cleared. -/
theorem getAccessToken_error_preserves_cache :
    ∀ st now e, needsGrant st now = true →
      getAccessToken st now (.error e) = (.error e, st, 1) := by
  intro st now e h
  cases st with
  | none => simp [getAccessToken]
  | some ts =>
      simp only [needsGrant] at h
      simp [getAccessToken, h]

/-- Concrete instance of `getAccessToken_error_preserves_cache`: a failing
grant at time 12 over a token expired at 10 leaves the expired token set in
place. -/
theorem getAccessToken_error_preserves_cache_witness :
    getAccessToken (some ⟨"t1", 10⟩) 12 (.error "grant rejected")
      = (.error "grant rejected", some ⟨"t1", 10⟩, 1) :=
  getAccessToken_error_preserves_cache (some ⟨"t1", 10⟩) 12 "grant rejected"
    (by decide)

/-- C4: when the downstream search responds with success and an empty
result set (`total = 0`), `getMember` resolves `null` rather than failing;
and it rejects with a classified `{status, description}` error only when
the HTTP status is non-success. -/
theorem getMember_empty_ok_and_err_only_on_failure :
    (∀ (resp : Response SearchResult) body, resp.ok = true →
      resp.body = some body → body.total = 0 → getMember resp = .ok none) ∧
    (∀ (resp : Response SearchResult) e, getMember resp = .err e →
      resp.ok = false) := by
  constructor
  · intro resp body hok hb ht
    simp [getMember, hok, hb, ht]
  · intro resp e h
    cases hok : resp.ok with
    | false => rfl
    | true =>
        exfalso
        simp only [getMember, hok] at h
        repeat' split at h
        all_goals simp_all

/-- Concrete instance of `getMember_empty_ok_and_err_only_on_failure`: a
successful search with `total = 0` resolves `null`. -/
theorem getMember_empty_ok_witness :
    getMember { ok := true, status := 200, statusText := "OK",
                bodyUsed := false, body := some { total := 0, items := [] } }
      = .ok none :=
  getMember_empty_ok_and_err_only_on_failure.1
    { ok := true, status := 200, statusText := "OK", bodyUsed := false,
      body := some { total := 0, items := [] } }
    { total := 0, items := [] } rfl rfl rfl

/-- C9: when the downstream search responds with success and `total > 0`,
`getMember` reads `items[0]` and `variants[0]` unguarded: on a successful
response with `total = 1` but an empty `items` list, and likewise on one
whose first item has an empty `variants` list, the lookup throws an
unclassified exception (`crash`) instead of a classified error or `null`. -/
theorem getMember_unguarded_index_crash :
    getMember { ok := true, status := 200, statusText := "OK",
                bodyUsed := false, body := some { total := 1, items := [] } }
      = .crash ∧
    getMember { ok := true, status := 200, statusText := "OK",
                bodyUsed := false,
                body := some { total := 1, items := [noVariantItem] } }
      = .crash :=
  ⟨rfl, rfl⟩

/-- C5: the request translator is a total function of
`(memberId, name, email, isVip)` (`nowText` only feeds the informational
audit value): its group list is exactly the regular group, extended by the
VIP group when `isVip` is true — so it always contains the regular group
and, as long as the two configured group ids are distinct, contains the VIP
group exactly when `isVip` is true; the approval flag is set
unconditionally; and `name` is wrapped in a single locale-neutral variant
record with `culture` and `segment` null. -/
theorem umbracoMemberModel_shape :
    ∀ cfg nowText memberId name email isVip,
      (umbracoMemberModel cfg nowText memberId name email isVip).groups
        = (if isVip then [cfg.regularGroupId, cfg.vipGroupId]
           else [cfg.regularGroupId]) ∧
      cfg.regularGroupId
        ∈ (umbracoMemberModel cfg nowText memberId name email isVip).groups ∧
      (isVip = true → cfg.vipGroupId
        ∈ (umbracoMemberModel cfg nowText memberId name email isVip).groups) ∧
      (cfg.vipGroupId ≠ cfg.regularGroupId →
        (cfg.vipGroupId
            ∈ (umbracoMemberModel cfg nowText memberId name email isVip).groups
          ↔ isVip = true)) ∧
      (umbracoMemberModel cfg nowText memberId name email isVip).isApproved
        = true ∧
      (umbracoMemberModel cfg nowText memberId name email isVip).variants
        = [{ culture := none, segment := none, name := name }] := by
  intro cfg nowText memberId name email isVip
  cases isVip <;> simp [umbracoMemberModel]

/-- Concrete instance of `umbracoMemberModel_shape` with distinct group
ids: the VIP flag set yields both groups, and membership of the VIP group
is equivalent to the flag. -/
theorem umbracoMemberModel_shape_witness :
    "vg" ∈ (umbracoMemberModel ⟨"mt", "rg", "vg"⟩ "now" "m1" "Alice"
            "a@x.com" true).groups ∧
    ("vg" ∈ (umbracoMemberModel ⟨"mt", "rg", "vg"⟩ "now" "m1" "Alice"
            "a@x.com" false).groups ↔ false = true) :=
  ⟨(umbracoMemberModel_shape ⟨"mt", "rg", "vg"⟩ "now" "m1" "Alice" "a@x.com"
      true).2.2.1 rfl,
   (umbracoMemberModel_shape ⟨"mt", "rg", "vg"⟩ "now" "m1" "Alice" "a@x.com"
      false).2.2.2.1 (by decide)⟩

/-- C3: when the preceding lookup resolves `null` (member absent), both
`updateMember` and `deleteMember` reject with `{code: 404, description:
"No such member"}` and address no downstream mutating call (the target-id
component is `none`: the PUT/DELETE is never issued), whatever the
downstream would have answered. -/
theorem update_delete_absent_member_404 :
    ∀ resp,
      updateMemberCore (.ok none) resp
        = (.err { code := 404, description := "No such member" }, none) ∧
      deleteMemberCore (.ok none) resp
        = (.err { code := 404, description := "No such member" }, none) :=
  fun _ => ⟨rfl, rfl⟩

/-- C6: for every update and delete operation, the downstream resource id
addressed by the mutating call is never invented locally: either no
mutating call is made at all, or the id is exactly the `id` field of the
member resolved by the lookup performed within that same operation. -/
theorem update_delete_target_from_lookup :
    ∀ lookRes resp,
      ((updateMemberCore lookRes resp).2 = none ∨
        ∃ m, lookRes = .ok (some m) ∧
          (updateMemberCore lookRes resp).2 = some m.id) ∧
      ((deleteMemberCore lookRes resp).2 = none ∨
        ∃ m, lookRes = .ok (some m) ∧
          (deleteMemberCore lookRes resp).2 = some m.id) := by
  intro lookRes resp
  rcases lookRes with ⟨_ | m⟩ | e | _
  · exact ⟨Or.inl rfl, Or.inl rfl⟩
  · exact ⟨Or.inr ⟨m, rfl, rfl⟩, Or.inr ⟨m, rfl, rfl⟩⟩
  · exact ⟨Or.inl rfl, Or.inl rfl⟩
  · exact ⟨Or.inl rfl, Or.inl rfl⟩

/-- C2: when the preceding lookup resolves an existing member,
`createMember` rejects with `{code: 409, description: "Member already
exists"}` and performs no downstream creation POST; and against the ideal
downstream, a `create` whose first run succeeds followed immediately by a
`create` with the same `memberId` makes the second call fail with 409. -/
theorem createMember_conflict_409 :
    (∀ m resp, createMemberCore (.ok (some m)) resp
        = (.err { code := 409, description := "Member already exists" },
           false)) ∧
    (∀ ds cfg nowText pwd newId nowText2 pwd2 newId2 memberId name email
        isVip name2 email2 isVip2,
      (createIdeal ds cfg nowText pwd newId memberId name email isVip).1
        = .ok () →
      (createIdeal
          (createIdeal ds cfg nowText pwd newId memberId name email isVip).2
          cfg nowText2 pwd2 newId2 memberId name2 email2 isVip2).1
        = .err { code := 409, description := "Member already exists" }) := by
  constructor
  · intro m resp
    rfl
  · intro ds cfg nowText pwd newId nowText2 pwd2 newId2 memberId name email
      isVip name2 email2 isVip2 h
    rcases hfind : ds.find? (fun m => m.username == memberId) with _ | m
    · have h1 : createIdeal ds cfg nowText pwd newId memberId name email isVip
          = (.ok (), dsApplyCreate ds
              { umbracoMemberModel cfg nowText memberId name email isVip with
                password := some pwd } newId) := by
        simp [createIdeal, idealSearchResp, dsSearch, hfind, getMember]
      rw [h1]
      simp [createIdeal, idealSearchResp, dsSearch, dsApplyCreate,
        List.find?_append, hfind, umbracoMemberModel, getMember,
        DsMember.toItem]
    · exfalso
      simp only [createIdeal, idealSearchResp, dsSearch, hfind, getMember,
        DsMember.toItem] at h
      rcases hv : m.variants with _ | ⟨v, vs⟩ <;> simp [hv] at h

/-- Concrete instance of `createMember_conflict_409`: creating `"m1"` in an
empty downstream succeeds, and creating `"m1"` again immediately afterwards
fails with 409. -/
theorem createMember_conflict_409_witness :
    (createIdeal
        (createIdeal [] ⟨"mt", "rg", "vg"⟩ "n1" "p1" "i1" "m1" "Alice"
          "a@x.com" true).2
        ⟨"mt", "rg", "vg"⟩ "n2" "p2" "i2" "m1" "Alice" "a@x.com" true).1
      = .err { code := 409, description := "Member already exists" } :=
  createMember_conflict_409.2 [] ⟨"mt", "rg", "vg"⟩ "n1" "p1" "i1" "n2" "p2"
    "i2" "m1" "Alice" "a@x.com" true "Alice" "a@x.com" true rfl

/-- C7 fails as stated on the mutating calls: on a creation POST answered
with a non-success status and no JSON body, `createMember` does not reject
with a classified error at all — `await response.json()` throws first, so
the promise never settles (`crash`), instead of rejecting with the HTTP
status text as description. -/
theorem createMember_no_json_body_unclassified :
    (createMemberCore (.ok none)
        { ok := false, status := 500, statusText := "Internal Server Error",
          bodyUsed := false, body := none }).1 = .crash ∧
    (createMemberCore (.ok none)
        { ok := false, status := 500, statusText := "Internal Server Error",
          bodyUsed := false, body := none }).1
      ≠ .err { code := 500, description := "Internal Server Error" } :=
  ⟨rfl, by decide⟩

/-- C7 (amended): the lookup's downstream call degrades gracefully — on a
non-success response (whose body has not been consumed, so the logging
branch reads `statusText` instead of calling `response.json()`),
`getMember` rejects with a classified error whose description is the HTTP
status text; the create/update/delete mutating calls instead throw an
unclassified exception when the non-success response has no JSON body. -/
theorem getMember_error_uses_status_text :
    ∀ (resp : Response SearchResult), resp.ok = false →
      resp.bodyUsed = false →
      getMember resp
        = .err { code := resp.status, description := resp.statusText } := by
  intro resp h1 h2
  simp [getMember, h1, h2]

/-- Concrete instance of `getMember_error_uses_status_text`: a 500 search
response without a JSON body rejects with the status text. -/
theorem getMember_error_uses_status_text_witness :
    getMember { ok := false, status := 500,
                statusText := "Internal Server Error", bodyUsed := false,
                body := (none : Option SearchResult) }
      = .err { code := 500, description := "Internal Server Error" } :=
  getMember_error_uses_status_text
    { ok := false, status := 500, statusText := "Internal Server Error",
      bodyUsed := false, body := none } rfl rfl

/-- C8: an inbound `POST /member` whose body is missing `email`, `name` or
`memberId` is answered with HTTP 400 and triggers no downstream call at
all: no token grant, no member search, no creation POST. -/
theorem postMember_missing_field_400 :
    ∀ env cfg nowText pwd (body : CreateBody),
      body.email = none ∨ body.name = none ∨ body.memberId = none →
      postMember env cfg nowText pwd body
        = (some (400,
            "Malformed request body (missing required member properties)"),
           { grants := 0, searches := 0, posts := 0 }) := by
  intro env cfg nowText pwd body h
  rcases h with h | h | h <;> simp [postMember, truthy, h]

/-- Concrete instance of `postMember_missing_field_400`: a body without an
`email` field yields 400 and zero outbound calls. -/
theorem postMember_missing_field_400_witness :
    postMember
      { tok := none, now := 0, grant := .ok ⟨"t", 1⟩,
        searchResp := idealSearchResp [] "m1",
        postResp := { ok := true, status := 200, statusText := "OK",
                      bodyUsed := false, body := some () } }
      ⟨"mt", "rg", "vg"⟩ "now" "pwd"
      { memberId := some "m1", name := some "Alice", email := none,
        isVip := none }
      = (some (400,
          "Malformed request body (missing required member properties)"),
         { grants := 0, searches := 0, posts := 0 }) :=
  postMember_missing_field_400
    { tok := none, now := 0, grant := .ok ⟨"t", 1⟩,
      searchResp := idealSearchResp [] "m1",
      postResp := { ok := true, status := 200, statusText := "OK",
                    bodyUsed := false, body := some () } }
    ⟨"mt", "rg", "vg"⟩ "now" "pwd"
    { memberId := some "m1", name := some "Alice", email := none,
      isVip := none }
    (Or.inl rfl)

end Broker
